import Mathlib

/-
Verification of the CryptoBoy sentiment-to-trading pipeline.

Shallow embedding of the Python sources under src/.  Python floats are
modelled as rationals: every comparison appearing in the claims is between
short decimal literals, where rational and IEEE orderings agree.
Timestamps are modelled as integers (seconds or milliseconds, per use).
-/

namespace CryptoBoy

/- ## Sentiment classification
   src/services/sentiment_analyzer/sentiment_processor.py, `_classify_sentiment`
   and SENTIMENT_THRESHOLDS -/

/-- Threshold table `SentimentProcessor.SENTIMENT_THRESHOLDS`. -/
def veryBullishThreshold : ℚ := 7/10

/-- Threshold table `SentimentProcessor.SENTIMENT_THRESHOLDS`. -/
def bullishThreshold : ℚ := 3/10

/-- Threshold table `SentimentProcessor.SENTIMENT_THRESHOLDS`. -/
def bearishThreshold : ℚ := -(3/10)

/-- Threshold table `SentimentProcessor.SENTIMENT_THRESHOLDS`. -/
def veryBearishThreshold : ℚ := -(7/10)

/-- `SentimentProcessor._classify_sentiment`: the if/elif cascade over the
score, in source order. -/
def classifySentiment (score : ℚ) : String :=
  if score ≥ veryBullishThreshold then "very_bullish"
  else if score ≥ bullishThreshold then "bullish"
  else if score ≤ veryBearishThreshold then "very_bearish"
  else if score ≤ bearishThreshold then "bearish"
  else "neutral"

/-- The inline classification in
`StrategyStateMonitor.get_sentiment_status`
(src/monitoring/strategy_monitor.py, lines 216 to 225), written with its
own literal thresholds. -/
def monitorClassifySentiment (score : ℚ) : String :=
  if score ≥ 7/10 then "very_bullish"
  else if score ≥ 3/10 then "bullish"
  else if score ≤ -(7/10) then "very_bearish"
  else if score ≤ -(3/10) then "bearish"
  else "neutral"

/-- C2: sentiment classification is a total deterministic function of the
score: the label is very_bullish iff score >= 0.7, bullish iff
0.3 <= score < 0.7, very_bearish iff score <= -0.7, bearish iff
-0.7 < score <= -0.3, and neutral otherwise; the monitor uses the same
bucketing; score +0.3 gives bullish, +0.29999 gives neutral, -0.3 gives
bearish. -/
theorem classifySentiment_buckets (s : ℚ) :
    (classifySentiment s = "very_bullish" ↔ 7/10 ≤ s) ∧
    (classifySentiment s = "bullish" ↔ 3/10 ≤ s ∧ s < 7/10) ∧
    (classifySentiment s = "very_bearish" ↔ s ≤ -(7/10)) ∧
    (classifySentiment s = "bearish" ↔ -(7/10) < s ∧ s ≤ -(3/10)) ∧
    (classifySentiment s = "neutral" ↔ -(3/10) < s ∧ s < 3/10) ∧
    monitorClassifySentiment s = classifySentiment s ∧
    classifySentiment (3/10) = "bullish" ∧
    classifySentiment (29999/100000) = "neutral" ∧
    classifySentiment (-(3/10)) = "bearish" := by
  refine ⟨?_, ?_, ?_, ?_, ?_, ?_,
      by norm_num [classifySentiment, veryBullishThreshold, bullishThreshold],
      by norm_num [classifySentiment, veryBullishThreshold, bullishThreshold,
        veryBearishThreshold, bearishThreshold],
      by norm_num [classifySentiment, veryBullishThreshold, bullishThreshold,
        veryBearishThreshold, bearishThreshold]⟩ <;>
    simp only [classifySentiment, monitorClassifySentiment,
      veryBullishThreshold, bullishThreshold, bearishThreshold,
      veryBearishThreshold] <;>
    split_ifs <;> simp_all <;> intros <;> first
      | rfl
      | linarith

/- ## Market-data message schema
   src/services/common/message_schemas.py, `RawMarketDataMessage` -/

/-- One character class of the pair regex. -/
def isUpperLetter (c : Char) : Bool := 'A' ≤ c && c ≤ 'Z'

/-- One side of the pair regex: 3 to 5 uppercase letters. -/
def pairSideOk (l : List Char) : Bool :=
  3 ≤ l.length && l.length ≤ 5 && l.all isUpperLetter

/-- The pydantic field regex `[A-Z]{3,5}/[A-Z]{3,5}` anchored at both ends. -/
def pairOk (s : String) : Bool :=
  match s.toList.splitOn '/' with
  | [a, b] => pairSideOk a && pairSideOk b
  | _ => false

/-- `PRICE_SANITY_BOUNDS["min_crypto_price"]`. -/
def minCryptoPrice : ℚ := 1/1000000

/-- `PRICE_SANITY_BOUNDS["max_crypto_price"]`. -/
def maxCryptoPrice : ℚ := 1000000

/-- Candle payload of `RawMarketDataMessage` (the timestamp field carries no
constraint and is omitted). -/
structure RawMarketData where
  pair : String
  open_ : ℚ
  high : ℚ
  low : ℚ
  close : ℚ
  volume : ℚ
deriving DecidableEq

/-- Field bound `gt=min_crypto_price, lt=max_crypto_price` (both strict). -/
def priceInBounds (p : ℚ) : Bool :=
  decide (minCryptoPrice < p) && decide (p < maxCryptoPrice)

/-- Acceptance predicate of `RawMarketDataMessage` under pydantic v1
semantics: fields validate in declaration order (timestamp, pair, open,
high, low, close, volume) and a cross-field validator sees in `values` only
the fields declared before its own.  `validate_high` therefore finds only
`open` among {low, open, close}, so of its three guarded comparisons only
`high >= open` runs; `validate_low` finds only `open` among {open, close},
so only `low <= open` runs.  The comparisons against `low` and `close` in
the source are dead code. -/
def rawMarketDataAccepted (m : RawMarketData) : Bool :=
  pairOk m.pair
    && priceInBounds m.open_ && priceInBounds m.high
    && priceInBounds m.low && priceInBounds m.close
    && decide ((0:ℚ) ≤ m.volume)
    && decide (m.open_ ≤ m.high)
    && decide (m.low ≤ m.open_)

/-- The rejection example quoted by the spec: open=100, high=90, low=80,
close=95. -/
def specExampleCandle : RawMarketData :=
  { pair := "BTC/USDT", open_ := 100, high := 90, low := 80, close := 95,
    volume := 1 }

/-- A candle violating the claimed invariant (close on top of high) that the
validators nevertheless accept. -/
def ohlcGapCandle : RawMarketData :=
  { pair := "BTC/USDT", open_ := 100, high := 100, low := 90, close := 120,
    volume := 1 }

theorem pairOk_btcusdt : pairOk "BTC/USDT" = true := by rfl

/-- C3: the schema rejects the spec example (high below open), but it does
NOT enforce the full OHLC invariant: a candle with close greater than high
is accepted, because the pydantic validators never see the fields declared
after their own.  The code thus contradicts its validator docstrings
(ensure high >= low, open, close and low <= high, open, close). -/
theorem rawMarketData_ohlc_gap :
    rawMarketDataAccepted specExampleCandle = false ∧
    rawMarketDataAccepted ohlcGapCandle = true ∧
    ohlcGapCandle.high < ohlcGapCandle.close := by
  refine ⟨?_, ?_, ?_⟩ <;>
    norm_num [rawMarketDataAccepted, specExampleCandle, ohlcGapCandle,
      pairOk_btcusdt, priceInBounds, minCryptoPrice, maxCryptoPrice]

/- ## Sentiment-signal message schema versus the published signal
   src/services/common/message_schemas.py, `SentimentSignalMessage`, and
   src/services/sentiment_analyzer/sentiment_processor.py,
   `_process_news_article` -/

/-- `SentimentSignalMessage.validate_model` whitelist. -/
def allowedModels : List String :=
  ["finbert", "distilroberta-financial", "ollama", "lmstudio"]

/-- ASCII lowercasing of one character, as `str.lower()` acts on the
model names in play. -/
def lowerChar (c : Char) : Char :=
  if 'A' ≤ c && c ≤ 'Z' then Char.ofNat (c.toNat + 32) else c

/-- `str.lower()` over the characters of the string. -/
def lowerString (s : String) : String := ⟨s.data.map lowerChar⟩

/-- `validate_model`: lowercase the field and test membership in the
whitelist. -/
def sentimentModelAccepted (m : String) : Bool :=
  allowedModels.contains (lowerString m)

/-- The required (no-default) fields of `SentimentSignalMessage`:
`confidence` is Optional and `model` has a default, all others are
`Field(...)`. -/
def sentimentSignalRequiredFields : List String :=
  ["timestamp", "pair", "score", "headline", "source"]

/-- The keys of the signal dict built for each matched pair in
`SentimentProcessor._process_news_article`. -/
def publishedSignalFields : List String :=
  ["type", "article_id", "pair", "source", "headline", "sentiment_score",
   "sentiment_label", "published", "analyzed_at", "model", "fallback_used"]

/-- The `model_used` tag of the oracle cascade in `_process_news_article`:
finbert when the primary oracle succeeds, fallback_keywords when only the
keyword fallback succeeds, neutral_default when both fail. -/
def cascadeModelTag (primaryOk fallbackOk : Bool) : String :=
  if primaryOk then "finbert"
  else if fallbackOk then "fallback_keywords"
  else "neutral_default"

/-- C4: signals published by the sentiment processor do not satisfy the
`SentimentSignalMessage` schema: the fallback cascade tags are rejected by
the model whitelist, and the published dict lacks the required `score` and
`timestamp` fields altogether (it carries `sentiment_score` and
`analyzed_at` instead), so even primary-oracle signals would fail
validation.  (The actual consume site, the signal cacher, applies no schema
validation: it uses `create_consumer_callback`, not
`safe_message_consumer`.) -/
theorem publishedSignal_fails_schema :
    sentimentModelAccepted (cascadeModelTag false true) = false ∧
    sentimentModelAccepted (cascadeModelTag false false) = false ∧
    sentimentModelAccepted (cascadeModelTag true true) = true ∧
    publishedSignalFields.contains "score" = false ∧
    publishedSignalFields.contains "timestamp" = false ∧
    sentimentSignalRequiredFields.all
      (fun f => publishedSignalFields.contains f) = false := by
  decide

/- ## Signal cacher history list
   src/services/signal_cacher/signal_cacher.py, `_update_history`, and
   src/services/common/redis_client.py, `RedisClient` -/

/-- The methods the `RedisClient` class actually defines (python attribute
lookup on an instance succeeds exactly for these). -/
def redisClientMethods : List String :=
  ["ensure_connection", "set_json", "get_json", "hset_json", "hgetall_json",
   "hget", "lpush", "lrange", "expire", "delete", "exists", "keys",
   "flushdb", "close"]

/-- Redis LPUSH on the history list (newest at head). -/
def lpushState (st : List String) (entry : String) : List String :=
  entry :: st

/-- Redis LTRIM key start stop: keep the inclusive index range. -/
def ltrimState (st : List String) (start stop : Nat) : List String :=
  (st.drop start).take (stop + 1 - start)

/-- `SignalCacher._update_history`: push the compact JSON entry, then call
`self.redis.ltrim(history_key, 0, 99)`.  Attribute lookup of `ltrim` on
`RedisClient` raises AttributeError because the class defines no such
method; the surrounding `except Exception` swallows it, so the trim step
runs only if the method exists. -/
def updateHistory (st : List String) (entry : String) : List String :=
  let pushed := lpushState st entry
  if redisClientMethods.contains "ltrim" then ltrimState pushed 0 99
  else pushed

/-- C5: `RedisClient` defines no `ltrim` method, so the cacher's history
write never trims: pushing onto a history list that already holds 100
entries leaves 101 entries, violating the claimed bound. -/
theorem history_grows_past_100 :
    redisClientMethods.contains "ltrim" = false ∧
    (updateHistory (List.replicate 100 "h") "entry").length = 101 := by
  constructor
  · decide
  · simp [updateHistory, lpushState, redisClientMethods]

/- ## Consumer callback error routing
   src/services/common/rabbitmq_client.py, `create_consumer_callback`, and
   src/services/signal_cacher/signal_cacher.py,
   `_process_sentiment_signal` -/

/-- The acknowledgement action a consumer callback takes on one message. -/
inductive MQAction where
  | ack
  | nackRequeue
  | nackDrop
deriving DecidableEq

/-- The callback produced by `create_consumer_callback` (with
auto_ack=False, as every service passes): json.loads failure is nacked
without requeue; any other exception escaping `process_func` is nacked WITH
requeue (source comment: requeue message for retry); success is acked. -/
def consumerCallbackAction (bodyDecodes processRaises : Bool) : MQAction :=
  if !bodyDecodes then .nackDrop
  else if processRaises then .nackRequeue
  else .ack

/-- `SignalCacher._process_sentiment_signal` catches any exception, logs,
and re-raises (source comment: re-raise to trigger message requeue), so an
internal error always escapes to the callback. -/
def cacherProcessRaises (internalError : Bool) : Bool := internalError

/-- `SentimentProcessor._process_news_article` catches every exception in a
trailing handler and returns without re-raising, so its callback never sees
an error. -/
def processorProcessRaises (internalError : Bool) : Bool :=
  if internalError then false else false

/-- C8 counterexample: an unexpected error while the signal cacher
processes a message is nacked with requeue=True, not acknowledged; the
claimed poison-pill quarantine does not happen on this path. -/
theorem unexpectedError_requeues :
    consumerCallbackAction true (cacherProcessRaises true) =
      MQAction.nackRequeue ∧
    consumerCallbackAction true (cacherProcessRaises true) ≠ MQAction.ack := by
  decide

/-- C8 amended: `create_consumer_callback` acks exactly the successfully
processed messages, nacks JSON-decoding failures without requeue, and nacks
every other callback error WITH requeue; the signal cacher re-raises its
unexpected errors so such messages requeue-loop, while the sentiment
processor swallows its unexpected errors so its messages are acked. -/
theorem consumerCallback_routing :
    (∀ b p, (consumerCallbackAction b p = MQAction.ack ↔ b = true ∧ p = false) ∧
      (consumerCallbackAction b p = MQAction.nackRequeue ↔ b = true ∧ p = true) ∧
      (consumerCallbackAction b p = MQAction.nackDrop ↔ b = false)) ∧
    (∀ e, consumerCallbackAction true (processorProcessRaises e) =
      MQAction.ack) := by
  decide

/- ## Redis cache client error containment
   src/services/common/redis_client.py, `RedisClient` public methods -/

/-- The try/except shape shared by every public `RedisClient` method: the
try block (ensure_connection, the redis call, any JSON decoding) either
produces a value or raises, and the `except` arms return the method's
neutral default. -/
def redisGuard {α : Type} (body : Except String α) (default : α) : α :=
  match body with
  | .ok v => v
  | .error _ => default

/-- `RedisClient.set_json`: `except Exception: return False`. -/
def set_json (body : Except String Bool) : Bool := redisGuard body false

/-- `RedisClient.get_json`: JSONDecodeError and Exception both return the
caller-supplied default. -/
def get_json {α : Type} (body : Except String α) (default : α) : α :=
  redisGuard body default

/-- `RedisClient.hset_json`: `except Exception: return 0`. -/
def hset_json (body : Except String Nat) : Nat := redisGuard body 0

/-- `RedisClient.hgetall_json`: `except Exception: return {}`. -/
def hgetall_json (body : Except String (List (String × String))) :
    List (String × String) :=
  redisGuard body []

/-- `RedisClient.hget`: `except Exception: return default`. -/
def hget {α : Type} (body : Except String α) (default : α) : α :=
  redisGuard body default

/-- `RedisClient.lpush`: `except Exception: return 0`. -/
def lpush (body : Except String Nat) : Nat := redisGuard body 0

/-- `RedisClient.lrange`: `except Exception: return []`. -/
def lrange (body : Except String (List String)) : List String :=
  redisGuard body []

/-- `RedisClient.expire`: `except Exception: return False`. -/
def expire (body : Except String Bool) : Bool := redisGuard body false

/-- `RedisClient.delete`: `except Exception: return 0`. -/
def delete (body : Except String Nat) : Nat := redisGuard body 0

/-- The method named `exists` in the source: `except Exception: return 0`. -/
def existsKeys (body : Except String Nat) : Nat := redisGuard body 0

/-- `RedisClient.keys`: `except Exception: return []`. -/
def keys (body : Except String (List String)) : List String :=
  redisGuard body []

/-- C10: every public cache-client operation is total at its interface: it
returns its neutral default (False, 0, empty dict or list, or the
caller-supplied default) whenever the underlying operation raises, and the
raised value itself never propagates; on success the underlying value is
returned unchanged, so a cache failure is observable only through the
returned value. -/
theorem redisClient_total (e : String) (dGet dHget : Option String)
    (vSet : Bool) (vList : List String) :
    set_json (.error e) = false ∧
    get_json (.error e) dGet = dGet ∧
    hset_json (.error e) = 0 ∧
    hgetall_json (.error e) = [] ∧
    hget (.error e) dHget = dHget ∧
    lpush (.error e) = 0 ∧
    lrange (.error e) = [] ∧
    expire (.error e) = false ∧
    delete (.error e) = 0 ∧
    existsKeys (.error e) = 0 ∧
    keys (.error e) = [] ∧
    set_json (.ok vSet) = vSet ∧
    lrange (.ok vList) = vList := by
  exact ⟨rfl, rfl, rfl, rfl, rfl, rfl, rfl, rfl, rfl, rfl, rfl, rfl, rfl⟩

/- ## Strategy sentiment lookup and backtest temporal merge
   src/strategies/llm_sentiment_strategy.py, `_get_sentiment_score`, and
   src/llm/signal_processor.py, `merge_with_market_data` -/

/-- One row of the loaded sentiment frame: analysis timestamp and score. -/
structure SentimentRow where
  ts : Int
  score : ℚ
deriving DecidableEq

/-- One OHLCV candle as seen by the join (only the timestamp matters). -/
structure Candle where
  ts : Int
  close : ℚ
deriving DecidableEq

/-- Stable insertion into an ascending-by-key list. -/
def insertByKey {α : Type} (key : α → Int) (x : α) : List α → List α
  | [] => [x]
  | y :: ys => if key x < key y then x :: y :: ys
               else y :: insertByKey key x ys

/-- Stable ascending sort by an integer key, modelling `sort_values` on the
timestamp column. -/
def sortByKey {α : Type} (key : α → Int) : List α → List α
  | [] => []
  | x :: xs => insertByKey key x (sortByKey key xs)

/-- `LLMSentimentStrategy._get_sentiment_score`, row selection: mask the
frame to rows with timestamp at most the candle timestamp and take the last
row of the mask (the most recent, since the frame was sorted at load). -/
def getSentimentRow (df : List SentimentRow) (t : Int) : Option SentimentRow :=
  (df.filter (fun r => decide (r.ts ≤ t))).getLast?

/-- `LLMSentimentStrategy._get_sentiment_score`: the matched row's score is
returned unchanged; an empty frame, no matching row, or a lookup error all
yield 0.0.  There is no staleness check anywhere in this method. -/
def getSentimentScore (df : List SentimentRow) (t : Int) : ℚ :=
  match getSentimentRow df t with
  | some r => r.score
  | none => 0

/-- One output row of `merge_with_market_data`: the candle timestamp, the
matched sentiment timestamp (none when no match was within tolerance), and
the sentiment score after `fillna(0.0)`. -/
structure MergedRow where
  candleTs : Int
  sentTs : Option Int
  score : ℚ
deriving DecidableEq

/-- `pd.merge_asof(..., direction="backward", tolerance=...)` for one left
row over a sorted right frame: the last sentiment row whose timestamp is at
most the candle timestamp and within tolerance. -/
def asofBackwardMatch (sdf : List SentimentRow) (tol t : Int) :
    Option SentimentRow :=
  (sdf.filter (fun s => decide (s.ts ≤ t) && decide (t - s.ts ≤ tol))).getLast?

/-- The asof merge over all candles, with `fillna(0.0)` on the score. -/
def mergeCandles (sdf : List SentimentRow) (tol : Int) (mdf : List Candle) :
    List MergedRow :=
  mdf.map (fun c =>
    match asofBackwardMatch sdf tol c.ts with
    | some r => { candleTs := c.ts, sentTs := some r.ts, score := r.score }
    | none => { candleTs := c.ts, sentTs := none, score := 0 })

/-- The safety filter at the end of `merge_with_market_data`: drop rows
whose sentiment timestamp is strictly greater than the candle timestamp
(a missing match compares as False in pandas, so such rows are kept). -/
def futureOk (row : MergedRow) : Bool :=
  !(match row.sentTs with
    | some ts => decide (row.candleTs < ts)
    | none => false)

/-- `SignalProcessor.merge_with_market_data`: sort both frames by
timestamp, asof-merge backward with tolerance, fill missing scores with
0.0, then drop future-dated rows. -/
def mergeWithMarketData (sdf : List SentimentRow) (mdf : List Candle)
    (tol : Int) : List MergedRow :=
  (mergeCandles (sortByKey SentimentRow.ts sdf) tol
    (sortByKey Candle.ts mdf)).filter futureOk

/-- Helper: the element selected by `getLast?` is a member of the list. -/
theorem mem_of_getLast_eq {α : Type} {l : List α} {a : α}
    (h : l.getLast? = some a) : a ∈ l := by
  have h2 : a ∈ l.getLast? := h
  obtain ⟨hne, rfl⟩ := List.mem_getLast?_eq_getLast h2
  exact List.getLast_mem hne

/-- C1: the sentiment/candle temporal join never reads the future.  The
strategy lookup only ever returns a row whose timestamp is at most the
candle timestamp, and every row of the backtest merge output carries a
sentiment timestamp at most its candle timestamp. -/
theorem sentiment_no_look_ahead :
    (∀ df t r, getSentimentRow df t = some r → r.ts ≤ t) ∧
    (∀ sdf mdf tol row, row ∈ mergeWithMarketData sdf mdf tol →
      ∀ sts, row.sentTs = some sts → sts ≤ row.candleTs) := by
  constructor
  · intro df t r h
    have hm := mem_of_getLast_eq h
    exact of_decide_eq_true (List.mem_filter.mp hm).2
  · intro sdf mdf tol row hrow sts hsts
    have hp := (List.mem_filter.mp hrow).2
    rw [futureOk, hsts] at hp
    simp only [Bool.not_eq_true', decide_eq_false_iff_not, Int.not_lt] at hp
    exact hp

/-- C1 witness: concrete instances of both conjuncts.  The strategy lookup
on a one-row frame at candle time 2 returns the row at time 1; the merge of
that frame with a candle at time 5 (tolerance 6) yields the row matching
timestamp 1. -/
theorem sentiment_no_look_ahead_witness : (1 : Int) ≤ 2 ∧ (1 : Int) ≤ 5 :=
  ⟨sentiment_no_look_ahead.1 [⟨1, 1⟩] 2 ⟨1, 1⟩ (by simp [getSentimentRow]),
   sentiment_no_look_ahead.2 [⟨1, 1⟩] [⟨5, 10⟩] 6 ⟨5, some 1, 1⟩
     (by simp [mergeWithMarketData, mergeCandles, asofBackwardMatch,
       sortByKey, insertByKey, futureOk])
     1 rfl⟩

/- ## Staleness handling
   src/strategies/llm_sentiment_strategy.py (no staleness logic) and
   src/monitoring/strategy_monitor.py, `get_sentiment_status` -/

/-- The staleness threshold the spec names (4 hours, in seconds). -/
def sentimentStaleSeconds : Int := 4 * 3600

/-- `StrategyStateMonitor.get_sentiment_status` staleness flag: initialized
True; when the cached timestamp parses, stale iff the age is strictly
greater than 4 hours; a missing or unparsable timestamp leaves it True.
The method returns the cached score alongside the flag and never replaces
it by 0. -/
def monitorIsStale (ageSeconds : Option Int) : Bool :=
  match ageSeconds with
  | none => true
  | some a => decide (a > 4 * 3600)

/-- C6 counterexample: a signal five hours older than the candle (stale
threshold four hours) is used verbatim by the strategy lookup: the score
comes back 0.8, not the claimed neutral 0. -/
theorem staleSignal_not_neutralized :
    getSentimentScore [⟨0, 4/5⟩] 18000 = 4/5 ∧
    (18000 : Int) - 0 > sentimentStaleSeconds ∧
    (4/5 : ℚ) ≠ 0 := by
  refine ⟨by simp [getSentimentScore, getSentimentRow], by decide, by norm_num⟩

/-- C6 amended: the strategy lookup applies no staleness neutralization at
all: whatever row it matches, its score is returned unchanged regardless of
age (missing rows and lookup failures yield 0); the 4-hour threshold exists
only as the monitor's is_stale flag, which uses a strict comparison (age
exactly 4 h is not stale, one second more is) and marks a missing or
malformed timestamp stale, without zeroing the score. -/
theorem staleness_only_flagged (df : List SentimentRow) (t : Int)
    (r : SentimentRow) (h : getSentimentRow df t = some r) :
    getSentimentScore df t = r.score ∧
    monitorIsStale (some sentimentStaleSeconds) = false ∧
    monitorIsStale (some (sentimentStaleSeconds + 1)) = true ∧
    monitorIsStale none = true := by
  refine ⟨?_, by decide, by decide, rfl⟩
  rw [getSentimentScore, h]

/-- C6 amended witness: the amended statement applied to a one-row frame
matched far beyond the staleness threshold. -/
theorem staleness_only_flagged_witness :
    getSentimentScore [⟨0, 1⟩] 100000 = 1 ∧
    monitorIsStale (some sentimentStaleSeconds) = false ∧
    monitorIsStale (some (sentimentStaleSeconds + 1)) = true ∧
    monitorIsStale none = true :=
  staleness_only_flagged [⟨0, 1⟩] 100000 ⟨0, 1⟩ (by simp [getSentimentRow])

/- ## Market streamer duplicate suppression
   src/services/data_ingestor/market_streamer.py,
   `_should_publish_candle` and `stream_symbol` -/

/-- `self.last_candles.get(symbol, 0)`: the per-symbol last published
timestamp, default 0.  The dict is modelled as an association list whose
most recent binding sits at the head. -/
def lookupLast (m : List (String × Int)) (sym : String) : Int :=
  match m.find? (fun p => p.1 == sym) with
  | some p => p.2
  | none => 0

/-- `MarketDataStreamer._should_publish_candle`: publish only when the
candle timestamp is strictly greater than the recorded one, and record the
new timestamp in that case. -/
def shouldPublishCandle (m : List (String × Int)) (sym : String) (ts : Int) :
    Bool × List (String × Int) :=
  if lookupLast m sym < ts then (true, (sym, ts) :: m) else (false, m)

/-- The per-candle body of `stream_symbol`: state is (last_candles,
published messages so far); a candle is appended to the published list
exactly when `_should_publish_candle` returns true. -/
def streamStep (st : List (String × Int) × List (String × Int))
    (c : String × Int) : List (String × Int) × List (String × Int) :=
  match shouldPublishCandle st.1 c.1 c.2 with
  | (true, m2) => (m2, st.2 ++ [c])
  | (false, m2) => (m2, st.2)

/-- A whole process lifetime of the streamer over a trace of incoming
(symbol, timestamp) candles, starting from the empty dict. -/
def runStreamer (trace : List (String × Int)) :
    List (String × Int) × List (String × Int) :=
  trace.foldl streamStep ([], [])

/-- Helper: recording a symbol's timestamp shadows the previous binding. -/
theorem lookupLast_cons (sym x : String) (ts : Int) (m : List (String × Int)) :
    lookupLast ((sym, ts) :: m) x = if sym = x then ts else lookupLast m x := by
  by_cases h : sym = x <;> simp [lookupLast, List.find?_cons, h]

/-- Helper: one streamer step preserves the publication invariant: every
published timestamp is at most the recorded one for its symbol, and the
published list is strictly increasing per symbol. -/
theorem streamStep_inv {m : List (String × Int)} {pubs : List (String × Int)}
    (hB : ∀ p ∈ pubs, p.2 ≤ lookupLast m p.1)
    (hP : pubs.Pairwise fun a b => a.1 = b.1 → a.2 < b.2) (c : String × Int) :
    (∀ p ∈ (streamStep (m, pubs) c).2,
      p.2 ≤ lookupLast (streamStep (m, pubs) c).1 p.1) ∧
    ((streamStep (m, pubs) c).2.Pairwise fun a b => a.1 = b.1 → a.2 < b.2) := by
  unfold streamStep shouldPublishCandle
  by_cases h : lookupLast m c.1 < c.2
  · simp only [h, if_pos]
    constructor
    · intro p hp
      rcases List.mem_append.mp hp with hp | hp
      · rw [lookupLast_cons]
        split
        · next heq =>
          have := hB p hp
          rw [← heq] at this
          exact le_of_lt (lt_of_le_of_lt this h)
        · exact hB p hp
      · have hc : p = c := by simpa using hp
        subst hc
        rw [lookupLast_cons, if_pos rfl]
    · rw [List.pairwise_append]
      refine ⟨hP, by simp, ?_⟩
      intro a ha b hb
      have hbc : b = c := by simpa using hb
      subst hbc
      intro heq
      have := hB a ha
      rw [heq] at this
      exact lt_of_le_of_lt this h
  · simp only [h, if_neg, not_false_iff]
    exact ⟨hB, hP⟩

/-- Helper: the streamer invariant carries through any fold of steps. -/
theorem streamRun_inv (trace : List (String × Int)) :
    ∀ m pubs, (∀ p ∈ pubs, p.2 ≤ lookupLast m p.1) →
      (pubs.Pairwise fun a b => a.1 = b.1 → a.2 < b.2) →
      (∀ p ∈ (trace.foldl streamStep (m, pubs)).2,
        p.2 ≤ lookupLast (trace.foldl streamStep (m, pubs)).1 p.1) ∧
      ((trace.foldl streamStep (m, pubs)).2.Pairwise
        fun a b => a.1 = b.1 → a.2 < b.2) := by
  induction trace with
  | nil => intro m pubs hB hP; exact ⟨hB, hP⟩
  | cons c rest ih =>
    intro m pubs hB hP
    have hstep := streamStep_inv hB hP c
    have := ih (streamStep (m, pubs) c).1 (streamStep (m, pubs) c).2
      hstep.1 hstep.2
    simpa [List.foldl_cons] using this

/-- C7: over any trace of incoming candles, the streamer's published
messages are strictly increasing in timestamp per symbol, so no
(pair, timestamp) is ever published twice in one process lifetime. -/
theorem streamer_no_duplicate_publish (trace : List (String × Int)) :
    ((runStreamer trace).2.Pairwise fun a b => a.1 = b.1 → a.2 < b.2) ∧
    (runStreamer trace).2.Nodup := by
  have h := streamRun_inv trace [] [] (by simp) (by simp)
  refine ⟨h.2, ?_⟩
  refine h.2.imp ?_
  intro a b hab hEq
  have h1 : a.1 = b.1 := by rw [hEq]
  have h2 := hab h1
  rw [hEq] at h2
  exact lt_irrefl _ h2

/- ## News poller publish loop
   src/services/data_ingestor/news_poller.py, `_poll_all_feeds` and
   `_fetch_feed` -/

/-- A feed entry after cleaning: its stable id and whether the crypto
keyword filter keeps it. -/
structure Article where
  id : String
  relevant : Bool
deriving DecidableEq

/-- `_fetch_feed` selection: keep entries whose article_id is not already
in `published_articles` and which are crypto-relevant. -/
def fetchNewArticles (seen : List String) (entries : List Article) :
    List Article :=
  entries.filter (fun a => !seen.contains a.id && a.relevant)

/-- The per-article publish loop of `_poll_all_feeds`: publish, and only on
success add the article_id to `published_articles`; a publish exception is
logged and the loop continues with the next article.  Returns the final
seen set and the successfully published articles in order. -/
def publishArticles (pub : Article → Bool) :
    List Article → List String → List String × List Article
  | [], seen => (seen, [])
  | a :: rest, seen =>
    if pub a then
      ((publishArticles pub rest (a.id :: seen)).1,
       a :: (publishArticles pub rest (a.id :: seen)).2)
    else
      publishArticles pub rest seen

/-- C9: (i) when publishing an article fails, the loop state is exactly as
if that article had not been offered: the seen set is unchanged by it and
all remaining articles are still processed; (ii) an id is in the final seen
set only if it was already seen or one of the successfully published
articles carries it; (iii) an unseen relevant article is selected again by
the next fetch, so a failed article is retried in the next cycle. -/
theorem publish_failure_atomic :
    (∀ pub (a : Article) rest seen, pub a = false →
      publishArticles pub (a :: rest) seen = publishArticles pub rest seen) ∧
    (∀ pub arts seen x, x ∈ (publishArticles pub arts seen).1 →
      x ∈ seen ∨ ∃ b ∈ (publishArticles pub arts seen).2, b.id = x) ∧
    (∀ seen entries (a : Article), a ∈ entries → a.relevant = true →
      seen.contains a.id = false → a ∈ fetchNewArticles seen entries) := by
  refine ⟨?_, ?_, ?_⟩
  · intro pub a rest seen h
    simp [publishArticles, h]
  · intro pub arts
    induction arts with
    | nil => intro seen x hx; exact Or.inl hx
    | cons a rest ih =>
      intro seen x hx
      by_cases hpa : pub a
      · simp only [publishArticles, hpa, if_pos] at hx ⊢
        rcases ih (a.id :: seen) x hx with hseen | ⟨b, hb, hbid⟩
        · rcases List.mem_cons.mp hseen with rfl | hseen
          · exact Or.inr ⟨a, List.mem_cons_self a _, rfl⟩
          · exact Or.inl hseen
        · exact Or.inr ⟨b, List.mem_cons_of_mem a hb, hbid⟩
      · simp only [publishArticles, hpa, if_neg, Bool.false_eq_true,
          not_false_iff] at hx ⊢
        exact ih seen x hx
  · intro seen entries a hmem hrel hseen
    simp [fetchNewArticles, List.mem_filter, hmem, hrel]
    simpa using hseen

/-- C9 witness: a failing publish of article bad leaves the run equal to
the run without it, the final seen set is covered by the published
articles, and bad is fetched again against the unchanged seen set. -/
theorem publish_failure_atomic_witness :
    (publishArticles (fun a => a.id == "ok") [⟨"bad", true⟩, ⟨"ok", true⟩] [] =
      publishArticles (fun a => a.id == "ok") [⟨"ok", true⟩] []) ∧
    ("ok" ∈ ([] : List String) ∨
      ∃ b ∈ (publishArticles (fun a => a.id == "ok") [⟨"ok", true⟩] []).2,
        b.id = "ok") ∧
    (⟨"bad", true⟩ : Article) ∈ fetchNewArticles [] [⟨"bad", true⟩] :=
  ⟨publish_failure_atomic.1 (fun a => a.id == "ok") ⟨"bad", true⟩
      [⟨"ok", true⟩] [] (by decide),
   publish_failure_atomic.2.1 (fun a => a.id == "ok") [⟨"ok", true⟩] [] "ok"
      (by decide),
   publish_failure_atomic.2.2 [] [⟨"bad", true⟩] ⟨"bad", true⟩
      (by decide) (by decide) (by decide)⟩

end CryptoBoy
